import Mathlib

/-
Verification of the Server.js request-building client (static-method variant
and instance-based variant) against its natural-language specification.
The JavaScript source is shallowly embedded: JS values become the inductive
type JsValue, objects become association lists preserving insertion order,
and ambient browser/ECMAScript builtins (encodeURI, JSON.parse,
window.location, XMLHttpRequest events) are modelled explicitly.
-/

namespace ServerJs

/-- A JavaScript value, as used by Server.js: strings, integer numbers,
booleans, null, undefined, objects (insertion-ordered key/value lists),
arrays, and function references (tagged by a name). -/
inductive JsValue where
  | vStr : String → JsValue
  | vNum : Int → JsValue
  | vBool : Bool → JsValue
  | vNull : JsValue
  | vUndef : JsValue
  | vObj : List (String × JsValue) → JsValue
  | vArr : List JsValue → JsValue
  | vFun : String → JsValue

open JsValue

/-- JavaScript truthiness: empty string, 0, false, null and undefined are
falsy; objects, arrays and functions are truthy. -/
def truthy : JsValue → Bool
  | vStr s => !(s.isEmpty)
  | vNum n => n != 0
  | vBool b => b
  | vNull => false
  | vUndef => false
  | vObj _ => true
  | vArr _ => true
  | vFun _ => true

/-- The JavaScript typeof operator (arrays and null report "object"). -/
def typeofJs : JsValue → String
  | vStr _ => "string"
  | vNum _ => "number"
  | vBool _ => "boolean"
  | vNull => "object"
  | vUndef => "undefined"
  | vObj _ => "object"
  | vArr _ => "object"
  | vFun _ => "function"

/-- Property lookup on a JS object: first binding wins; missing keys and
lookups on non-objects yield undefined (arrays index by numeric string). -/
def jsGet : JsValue → String → JsValue
  | vObj l, k =>
      match l.find? (fun p => p.1 == k) with
      | some p => p.2
      | none => vUndef
  | vArr l, k =>
      match l.enum.find? (fun p => toString p.1 == k) with
      | some p => p.2
      | none => vUndef
  | _, _ => vUndef

/-- The JavaScript `||` operator: returns the left operand when truthy,
otherwise the right operand. -/
def jsOr (a b : JsValue) : JsValue := if truthy a then a else b

/-- String coercion as JS `+` applies it to the values Server.js
concatenates (strings, numbers, booleans, null, undefined). -/
def jsToString : JsValue → String
  | vStr s => s
  | vNum n => toString n
  | vBool b => if b then "true" else "false"
  | vNull => "null"
  | vUndef => "undefined"
  | vObj _ => "[object Object]"
  | vArr l => String.intercalate "," (l.map (fun _ => ""))
  | vFun n => n

/-- ASCII lower-casing of one character, as String.prototype.toLowerCase
acts on the ASCII range. -/
def lowerChar (c : Char) : Char :=
  if 'A' ≤ c ∧ c ≤ 'Z' then Char.ofNat (c.toNat + 32) else c

/-- ASCII upper-casing of one character, as String.prototype.toUpperCase
acts on the ASCII range. -/
def upperChar (c : Char) : Char :=
  if 'a' ≤ c ∧ c ≤ 'z' then Char.ofNat (c.toNat - 32) else c

/-- ASCII lower-casing of a string. -/
def lowerStr (s : String) : String := String.mk (s.toList.map lowerChar)

/-- ASCII upper-casing of a string. -/
def upperStr (s : String) : String := String.mk (s.toList.map upperChar)

/-- Substring containment, the semantics of `indexOf(...) != -1`. -/
def containsSubstr (hay needle : String) : Bool :=
  decide (needle.toList <:+: hay.toList)

/-- Character membership test, the semantics of `indexOf(c) != -1`. -/
def containsChar (s : String) (c : Char) : Bool := s.toList.contains c

/-- Characters encodeURI leaves unescaped: ASCII letters, digits, and
the unreserved/reserved marks - _ . ! ~ * ' ( ) ; / ? : @ & = + $ , #. -/
def encodeURIUnescaped (c : Char) : Bool :=
  ('A' ≤ c ∧ c ≤ 'Z') ∨ ('a' ≤ c ∧ c ≤ 'z') ∨ ('0' ≤ c ∧ c ≤ '9') ∨
  c ∈ ['-', '_', '.', '!', '~', '*', Char.ofNat 39, '(', ')',
       ';', '/', '?', ':', '@', '&', '=', '+', '$', ',', '#']

/-- UTF-8 encoding of a code point as a list of byte values. -/
def utf8Bytes (n : Nat) : List Nat :=
  if n < 0x80 then [n]
  else if n < 0x800 then [0xC0 + n / 0x40, 0x80 + n % 0x40]
  else if n < 0x10000 then
    [0xE0 + n / 0x1000, 0x80 + (n / 0x40) % 0x40, 0x80 + n % 0x40]
  else
    [0xF0 + n / 0x40000, 0x80 + (n / 0x1000) % 0x40,
     0x80 + (n / 0x40) % 0x40, 0x80 + n % 0x40]

/-- One upper-case hexadecimal digit. -/
def hexDigit (n : Nat) : Char :=
  if n < 10 then Char.ofNat (48 + n) else Char.ofNat (55 + n)

/-- Percent-encoding of one byte value, upper-case hex. -/
def percentByte (b : Nat) : List Char :=
  ['%', hexDigit (b / 16), hexDigit (b % 16)]

/-- Model of the ECMAScript encodeURI builtin: characters in the
unescaped set pass through; every other character is replaced by the
percent-encoding of its UTF-8 bytes. -/
def encodeURI (s : String) : String :=
  String.mk (s.toList.flatMap (fun c =>
    if encodeURIUnescaped c then [c] else (utf8Bytes c.toNat).flatMap percentByte))

/-- Strict equality with the literal false (`v === false` in JS). -/
def isJsFalse : JsValue → Bool
  | vBool false => true
  | _ => false

/-- Strict equality with the literal true (`v === true` in JS). -/
def isJsTrue : JsValue → Bool
  | vBool true => true
  | _ => false

/-- Object.entries iteration: own entries in insertion order (configs are
modelled with distinct keys, as JS object literals cannot repeat a key). -/
def jsEntries : JsValue → List (String × JsValue)
  | vObj l => l
  | vArr l => l.enum.map (fun p => (toString p.1, p.2))
  | _ => []

/-- The static fields of class Server that the request path reads or
writes.  `method`, `content_type` and `params` are kept as Lean strings
because the class only ever stores strings in them; `contentType` is the
extra property that the static setContentType writes (the declared field
is `content_type`), initially undefined. -/
structure ServerState where
  status : JsValue
  error : JsValue
  error_level : Nat
  overrides_url_auto_resolve : Bool
  method : String
  src : JsValue
  content_type : String
  contentType : JsValue
  obj : JsValue
  params : String
  cbf : JsValue

/-- The initial values of the static fields of class Server. -/
def initialState : ServerState :=
  { status := vBool false
    error := vBool false
    error_level := 0
    overrides_url_auto_resolve := false
    method := "POST"
    src := vBool false
    content_type := "application/x-www-form-urlencoded"
    contentType := vUndef
    obj := vBool false
    params := ""
    cbf := vBool false }

/-- Server.checkArgs (static): rejects non-object configs silently;
records the fatal missing-destination diagnostic (error_level 0x01) when
`src` is falsy and returns false; records the missing-arguments warning
(error_level 0x10) when `args` is falsy but returns true. -/
def checkArgs (st : ServerState) (q : JsValue) : ServerState × Bool :=
  if !(typeofJs q == "array" || typeofJs q == "object") then (st, false)
  else if !(truthy (jsGet q "src")) then
    ({ st with
        status := vNum 0x0001
        error := vStr "URL destination was not specified in arguments. Please specify a target URL server to send this data to."
        error_level := 0x01 }, false)
  else if !(truthy (jsGet q "args")) then
    ({ st with
        status := vNum 0x0001
        error := vStr "No arguments were specified."
        error_level := 0x10 }, true)
  else (st, true)

/-- Server.check_obj (static): typeof Server.obj is "array" or "object". -/
def check_obj (st : ServerState) : Bool :=
  typeofJs st.obj == "array" || typeofJs st.obj == "object"

/-- Server.getSrc (static): returns obj.src when it is a string,
otherwise false. -/
def getSrc (st : ServerState) : JsValue :=
  if !(typeofJs st.obj == "array") && !(typeofJs st.obj == "object") then vBool false
  else if typeofJs (jsGet st.obj "src") == "string" then jsGet st.obj "src"
  else vBool false

/-- Server.url_encode (static): encodeURI on strings, anything else is
returned untouched. -/
def url_encode : JsValue → JsValue
  | vStr s => vStr (encodeURI s)
  | v => v

/-- One `item=value` fragment of the parameter string: both sides pass
through url_encode and JS string concatenation coerces the value. -/
def encodePair (p : String × JsValue) : String :=
  jsToString (url_encode (vStr p.1)) ++ "=" ++ jsToString (url_encode p.2)

/-- One iteration of the getParams loop: the flag i distinguishes the
first iteration (no "&" prefix, and i is incremented) exactly as the
source loop does. -/
def paramStep (acc : String × Nat) (p : String × JsValue) : String × Nat :=
  if acc.2 == 0 then (acc.1 ++ encodePair p, acc.2 + 1)
  else (acc.1 ++ "&" ++ encodePair p, acc.2)

/-- Server.getParams (static): empty string when obj.args is falsy or
not typeof array/object; otherwise the loop over Object.entries joining
encoded `key=value` pairs with "&". -/
def getParams (st : ServerState) : String :=
  let args := jsGet st.obj "args"
  if !(truthy args) || !(typeofJs args == "array" || typeofJs args == "object") then ""
  else ((jsEntries args).foldl paramStep ("", 0)).1

/-- Server.setMethod (static): upper-cases obj.method into the method
field when present and a string; otherwise leaves the field alone. -/
def setMethod (st : ServerState) : ServerState :=
  if !(check_obj st) then st
  else if truthy (jsGet st.obj "method") && typeofJs (jsGet st.obj "method") == "string" then
    { st with method := upperStr (jsToString (jsGet st.obj "method")) }
  else st

/-- Server.setContentType (static): upper-cases obj["content-type"] when
present and a string — but assigns it to the property `contentType`,
while the declared field (and the one connect reads) is `content_type`. -/
def setContentType (st : ServerState) : ServerState :=
  if !(check_obj st) then st
  else if truthy (jsGet st.obj "content-type") &&
          typeofJs (jsGet st.obj "content-type") == "string" then
    { st with contentType := vStr (upperStr (jsToString (jsGet st.obj "content-type"))) }
  else st

/-- Server.setCallbackFunction (static): first truthy of obj.func,
obj.cbf, obj.callback, obj["callback-function"], else false; no-op when
check_obj fails. -/
def setCallbackFunction (st : ServerState) : ServerState :=
  if !(check_obj st) then st
  else
    let picked :=
      jsOr (jsGet st.obj "func") (jsOr (jsGet st.obj "cbf")
        (jsOr (jsGet st.obj "callback")
          (jsOr (jsGet st.obj "callback-function") (vBool false))))
    { st with cbf := picked }

/-- Server.checkReq (static): the source expression is
`!(method === false || !method.length > 0 || !params.length > 0 || obj === false)`;
by JS precedence `!x.length > 0` is `(!x.length) > 0`, which holds
exactly when the length is 0, so the check demands a non-empty method, a
NON-EMPTY params string, and obj not the literal false.  `method` is a
Lean string here because the class only ever stores strings in it, so
`method === false` never holds. -/
def checkReq (st : ServerState) : Bool :=
  !(st.method.length == 0 || st.params.length == 0 || isJsFalse st.obj)

/-- The single outbound HTTP request that connect builds. -/
structure Request where
  method : String
  url : String
  headers : List (String × String)
  body : String

/-- Server.connect (static), dispatch part: returns false without a
request when checkReq fails; otherwise opens `method src`, sets the one
header Content-type from the `content_type` field, sends params as the
body, and returns true. -/
def connect (st : ServerState) : ServerState × Bool × Option Request :=
  if !(checkReq st) then (st, false, none)
  else (st, true, some
    { method := st.method
      url := jsToString st.src
      headers := [("Content-type", st.content_type)]
      body := st.params })

/-- The ambient window.location, as read by validateSources (protocol
includes the trailing colon, as in the browser). -/
structure Location where
  protocol : String
  host : String
  hostname : String
  pathname : String

/-- The character class `[A-z0-9]` of the dirname regex (note: `A-z`
spans every ASCII code point from 65 to 122). -/
def wordClass (c : Char) : Bool :=
  ('A' ≤ c ∧ c ≤ 'z') ∨ ('0' ≤ c ∧ c ≤ '9')

/-- The five alternatives of the dirname extension regexes. -/
def extAlternatives : List String := ["php", "js", "css", "html", "asp"]

/-- Whether one of the extension alternatives is a case-insensitive
prefix of the text (the `(php|js|css|html|asp)` group followed by `.*`). -/
def extPrefixAt (cs : List Char) : Bool :=
  extAlternatives.any (fun e => e.toList.isPrefixOf (cs.map lowerChar))

/-- Match of `[A-z0-9]+\.(php|js|css|html|asp)` at the head of the text:
a non-empty run of word-class characters, a dot, then an extension
alternative (the run is maximal, which is equivalent because the class
excludes the dot). -/
def runDotExt (cs : List Char) : Bool :=
  let run := cs.takeWhile wordClass
  let rest := cs.drop run.length
  run.length > 0 &&
    (match rest with
     | '.' :: r => extPrefixAt r
     | _ => false)

/-- Match of the full dirname pattern `[\/]?[A-z0-9]+\.(ext).*` at the
head of the text (the optional slash is forced when present since a
slash is not in the word class). -/
def fileMatchAt : List Char → Bool
  | [] => false
  | c :: rest => if c = '/' then runDotExt rest else runDotExt (c :: rest)

/-- Index of the leftmost position where the dirname pattern matches,
as String.prototype.replace finds it. -/
def findMatchIdx : List Char → Option Nat
  | [] => none
  | c :: rest =>
      if fileMatchAt (c :: rest) then some 0
      else (findMatchIdx rest).map (· + 1)

/-- String.prototype.split(".") semantics: the list of dot-separated
segments, including empty ones. -/
def splitDotAux : List Char → List Char → List String
  | [], acc => [String.mk acc.reverse]
  | c :: rest, acc =>
      if c = '.' then String.mk acc.reverse :: splitDotAux rest []
      else splitDotAux rest (c :: acc)

/-- Split a string at every dot. -/
def splitOnDot (q : String) : List String := splitDotAux q.toList []

/-- Server.dirname (static) on a string path: when the path has a dot
and its last dot-separated segment contains one of php/js/css/html/asp
case-insensitively, replace the first match of
`[\/]?[A-z0-9]+\.(php|js|css|html|asp).*` (which always extends to the
end of the string) with "/"; otherwise return the path unchanged.  The
source's non-string guard returns the argument untouched; dirname is
only ever applied to window.location.pathname, a string. -/
def dirname (q : String) : String :=
  let segs := splitOnDot q
  if containsChar q '.' &&
     (match segs.getLast? with
      | some seg => extAlternatives.any (fun e => containsSubstr (lowerStr seg) e)
      | none => false) then
    match findMatchIdx q.toList with
    | some i => String.mk (q.toList.take i) ++ "/"
    | none => q
  else q

/-- Server.validateSources (static): no-op unless src is a string; when
its lower-casing lacks the substring "http", rewrite src to
protocol + "//" + (host or hostname) + dirname(pathname) + src. -/
def validateSources (loc : Location) (st : ServerState) : ServerState :=
  if !(typeofJs st.src == "string") then st
  else if containsSubstr (lowerStr (jsToString st.src)) "http" then st
  else { st with src := vStr (loc.protocol ++ "//" ++
          (if !(loc.host.isEmpty) then loc.host else loc.hostname) ++
          dirname loc.pathname ++ jsToString st.src) }

/-- The state-derivation sequence of Server.send (static) after
validation passes: store the config, resolve src (auto-resolving
against window.location while the url-auto-resolve override is the
literal false), encode params, resolve method and content type, then
pick the callback from the positional arguments or the config. -/
def sendDerive (loc : Location) (st : ServerState) (args cbf func : JsValue) : ServerState :=
  let st2 := { st with obj := args }
  let st3 := { st2 with src := getSrc st2 }
  let st4 := if st3.overrides_url_auto_resolve == false then validateSources loc st3 else st3
  let st5 := { st4 with params := getParams st4 }
  let st6 := setMethod st5
  let st7 := setContentType st6
  if isJsFalse func && !(isJsFalse cbf) then { st7 with cbf := cbf }
  else if isJsTrue cbf && !(isJsFalse func) then { st7 with cbf := func }
  else setCallbackFunction st7

/-- Server.send (static): validate with checkArgs (returning false on
failure), derive the state, then connect. -/
def send (loc : Location) (st : ServerState) (args cbf func : JsValue) :
    ServerState × Bool × Option Request :=
  let (st1, ok) := checkArgs st args
  if !ok then (st1, false, none)
  else connect (sendDerive loc st1 args cbf func)

/-- The terminal event of an XMLHttpRequest as Server.canReach observes
it: a completed response with an HTTP status, a network error, or a
timeout. -/
inductive XhrOutcome where
  | httpStatus : Nat → XhrOutcome
  | netError : XhrOutcome
  | timedOut : XhrOutcome
deriving DecidableEq

/-- What a canReach call does: whether it issued the HEAD request, and
the boolean it resolves. -/
structure ProbeResult where
  requestIssued : Bool
  result : Bool
deriving DecidableEq

/-- Server.canReach (static): a falsy url (the empty string) resolves
false before any request is created; otherwise a HEAD request is issued
with the given timeout and the promise resolves with
`status >= 200 && status < 300` on completion, false on error or
timeout. -/
def canReach (url : String) (_timeout : Nat) (outcome : XhrOutcome) : ProbeResult :=
  if url.isEmpty then { requestIssued := false, result := false }
  else
    { requestIssued := true
      result :=
        match outcome with
        | .httpStatus c => 200 ≤ c && c < 300
        | .netError => false
        | .timedOut => false }

/-- JSON whitespace. -/
def isJsonWs (c : Char) : Bool := c = ' ' || c = '\t' || c = '\n' || c = '\r'

/-- Drop leading JSON whitespace. -/
def skipWs (cs : List Char) : List Char := cs.dropWhile isJsonWs

/-- Value of one hexadecimal digit. -/
def hexVal (c : Char) : Option Nat :=
  if '0' ≤ c ∧ c ≤ '9' then some (c.toNat - 48)
  else if 'a' ≤ c ∧ c ≤ 'f' then some (c.toNat - 87)
  else if 'A' ≤ c ∧ c ≤ 'F' then some (c.toNat - 55)
  else none

/-- ASCII decimal digit. -/
def isDigitChar (c : Char) : Bool := '0' ≤ c ∧ c ≤ '9'

/-- Body of a JSON string literal after the opening quote: plain
characters and the standard escapes, ending at the closing quote. -/
def parseStringBody : Nat → List Char → Option (String × List Char)
  | 0, _ => none
  | _, [] => none
  | fuel+1, c :: rest =>
    if c = '"' then some ("", rest)
    else if c = '\\' then
      match rest with
      | [] => none
      | e :: rest2 =>
        let cont (ch : Char) (rem : List Char) : Option (String × List Char) :=
          match parseStringBody fuel rem with
          | some (s, r) => some (String.singleton ch ++ s, r)
          | none => none
        if e = '"' then cont '"' rest2
        else if e = '\\' then cont '\\' rest2
        else if e = '/' then cont '/' rest2
        else if e = 'b' then cont (Char.ofNat 8) rest2
        else if e = 'f' then cont (Char.ofNat 12) rest2
        else if e = 'n' then cont '\n' rest2
        else if e = 'r' then cont '\r' rest2
        else if e = 't' then cont '\t' rest2
        else if e = 'u' then
          match rest2 with
          | a :: b :: c2 :: d :: rest3 =>
            (match hexVal a, hexVal b, hexVal c2, hexVal d with
             | some x, some y, some z, some w =>
                 cont (Char.ofNat (((x*16+y)*16+z)*16+w)) rest3
             | _, _, _, _ => none)
          | _ => none
        else none
    else
      match parseStringBody fuel rest with
      | some (s, r) => some (String.singleton c ++ s, r)
      | none => none

/-- A run of decimal digits and its value. -/
def parseDigits (cs : List Char) : Option (Nat × List Char) :=
  let ds := cs.takeWhile isDigitChar
  if ds.isEmpty then none
  else some (ds.foldl (fun n c => n * 10 + (c.toNat - 48)) 0, cs.drop ds.length)

/-- Whether a numeral continues with a fraction or exponent part (the
model of JSON.parse below is restricted to integer numerals and rejects
these, see jsonParse). -/
def hasNumTail : List Char → Bool
  | [] => false
  | c :: _ => c = '.' || c = 'e' || c = 'E'

mutual

/-- One JSON value and the remaining input, fuel-bounded. -/
def parseJsonValue : Nat → List Char → Option (JsValue × List Char)
  | 0, _ => none
  | fuel+1, cs =>
    match skipWs cs with
    | [] => none
    | c :: rest =>
      if c = 't' then
        (match rest with | 'r' :: 'u' :: 'e' :: r => some (vBool true, r) | _ => none)
      else if c = 'f' then
        (match rest with | 'a' :: 'l' :: 's' :: 'e' :: r => some (vBool false, r) | _ => none)
      else if c = 'n' then
        (match rest with | 'u' :: 'l' :: 'l' :: r => some (vNull, r) | _ => none)
      else if c = '"' then
        match parseStringBody (rest.length + 1) rest with
        | some (s, r) => some (vStr s, r)
        | none => none
      else if c = '-' then
        match parseDigits rest with
        | some (n, r) => if hasNumTail r then none else some (vNum (-(n : Int)), r)
        | none => none
      else if isDigitChar c then
        match parseDigits (c :: rest) with
        | some (n, r) => if hasNumTail r then none else some (vNum (n : Int), r)
        | none => none
      else if c = '{' then
        match skipWs rest with
        | '}' :: r => some (vObj [], r)
        | cs2 =>
          match parseMembers fuel cs2 with
          | some (l, r) => some (vObj l, r)
          | none => none
      else if c = '[' then
        match skipWs rest with
        | ']' :: r => some (vArr [], r)
        | cs2 =>
          match parseElements fuel cs2 with
          | some (l, r) => some (vArr l, r)
          | none => none
      else none

/-- The members of a JSON object after the opening brace (non-empty
case), up to and including the closing brace. -/
def parseMembers : Nat → List Char → Option (List (String × JsValue) × List Char)
  | 0, _ => none
  | fuel+1, cs =>
    match skipWs cs with
    | '"' :: r =>
      (match parseStringBody (r.length + 1) r with
       | some (k, r2) =>
         (match skipWs r2 with
          | ':' :: r3 =>
            (match parseJsonValue fuel r3 with
             | some (v, r4) =>
               (match skipWs r4 with
                | ',' :: r5 =>
                  (match parseMembers fuel r5 with
                   | some (l, r6) => some ((k, v) :: l, r6)
                   | none => none)
                | '}' :: r5 => some ([(k, v)], r5)
                | _ => none)
             | none => none)
          | _ => none)
       | none => none)
    | _ => none

/-- The elements of a JSON array after the opening bracket (non-empty
case), up to and including the closing bracket. -/
def parseElements : Nat → List Char → Option (List JsValue × List Char)
  | 0, _ => none
  | fuel+1, cs =>
    match parseJsonValue fuel cs with
    | some (v, r) =>
      (match skipWs r with
       | ',' :: r2 =>
         (match parseElements fuel r2 with
          | some (l, r3) => some (v :: l, r3)
          | none => none)
       | ']' :: r2 => some ([v], r2)
       | _ => none)
    | none => none

end

/-- Modelled from the spec: the ambient ECMAScript JSON.parse builtin is
not part of this repository (the source calls it as a browser global and
the spec delegates it to the hosting environment); this model parses
JSON text into JsValue, restricted to integer numerals (numerals with a
fraction or exponent part are rejected), and yields none exactly where
JSON.parse would throw a SyntaxError within that fragment. -/
def jsonParse (s : String) : Option JsValue :=
  match parseJsonValue (s.length + 1) s.toList with
  | some (v, r) => if (skipWs r).isEmpty then some v else none
  | none => none

/-- The response-classification step of the static onreadystatechange
handler: when the text contains both an opening and a closing brace, or
both an opening and a closing bracket, try JSON.parse and fall back to
the raw text on a parse error; otherwise keep the raw text. -/
def classifyBody (resp : String) : JsValue :=
  if (containsChar resp '{' && containsChar resp '}') ||
     (containsChar resp '[' && containsChar resp ']') then
    match jsonParse resp with
    | some v => v
    | none => vStr resp
  else vStr resp

/-- Model of `window[v]` truthiness for the values Server.js stores in
cbf: a string is looked up among the global function names; values that
are not strings have no window binding. -/
def windowHas (fns : List String) : JsValue → Bool
  | vStr s => fns.contains s
  | _ => false

/-- What the completion handler does with a response. -/
inductive HandlerAction where
  | noCallbackWarn : HandlerAction
  | callbackNotFoundWarn : HandlerAction
  | delivered : JsValue → HandlerAction
  | ignored : HandlerAction

/-- The static onreadystatechange handler at readyState 4: statuses in
[200, 300) either warn on a falsy cbf, deliver the classified body when
cbf names a window function or is itself a function, or warn that the
callback cannot be located; every other status does nothing. -/
def handleResponse (fns : List String) (st : ServerState)
    (status : Nat) (responseText : String) : HandlerAction :=
  if 200 ≤ status ∧ status < 300 then
    if !(truthy st.cbf) then .noCallbackWarn
    else if windowHas fns st.cbf || typeofJs st.cbf == "function" then
      .delivered (classifyBody responseText)
    else .callbackNotFoundWarn
  else .ignored

/-- The per-instance fields of the instance-based Server class that the
request path reads or writes. -/
structure InstState where
  error : JsValue
  errorLevel : Nat
  status : JsValue
  method : String
  contentType : String
  src : JsValue
  obj : JsValue
  params : String
  cbf : JsValue

/-- The initial field values of a fresh instance-based Server. -/
def initInst : InstState :=
  { error := vBool false
    errorLevel := 0
    status := vBool false
    method := "POST"
    contentType := "application/x-www-form-urlencoded"
    src := vBool false
    obj := vBool false
    params := ""
    cbf := vBool false }

/-- checkObj (instance): typeof this.obj is "array" or "object". -/
def checkObjI (st : InstState) : Bool :=
  ["array", "object"].contains (typeofJs st.obj)

/-- setMethod (instance): always reassigns — obj.method upper-cased when
present and a string, otherwise the default "POST". -/
def setMethodI (st : InstState) : InstState :=
  { st with method :=
      if checkObjI st && truthy (jsGet st.obj "method") &&
         typeofJs (jsGet st.obj "method") == "string"
      then upperStr (jsToString (jsGet st.obj "method")) else "POST" }

/-- setContentType (instance): always reassigns — obj["content-type"]
upper-cased when present and a string, otherwise the default
"application/x-www-form-urlencoded". -/
def setContentTypeI (st : InstState) : InstState :=
  { st with contentType :=
      if checkObjI st && truthy (jsGet st.obj "content-type") &&
         typeofJs (jsGet st.obj "content-type") == "string"
      then upperStr (jsToString (jsGet st.obj "content-type"))
      else "application/x-www-form-urlencoded" }

/-- setCallbackFunction (instance): first truthy of obj.func, obj.cbf,
obj.callback, obj["callback-function"], else false. -/
def setCallbackFunctionI (st : InstState) : JsValue :=
  if checkObjI st then
    jsOr (jsGet st.obj "func") (jsOr (jsGet st.obj "cbf")
      (jsOr (jsGet st.obj "callback")
        (jsOr (jsGet st.obj "callback-function") (vBool false))))
  else vBool false

/-- checkReq (instance): `this.method && this.params && this.obj` —
every field must be truthy, so the params string must be non-empty. -/
def checkReqI (st : InstState) : Bool :=
  !(st.method.isEmpty) && !(st.params.isEmpty) && truthy st.obj

/-- getSrc (instance): obj.src when checkObj passes and it is a string,
else false. -/
def getSrcI (st : InstState) : JsValue :=
  if checkObjI st && typeofJs (jsGet st.obj "src") == "string" then jsGet st.obj "src"
  else vBool false

/-- getParams (instance): empty unless checkObj passes and typeof
obj.args is array/object; otherwise the same first-iteration-flagged
join of url-encoded `key=value` pairs. -/
def getParamsI (st : InstState) : String :=
  if !(checkObjI st) || !(["array", "object"].contains (typeofJs (jsGet st.obj "args"))) then ""
  else ((jsEntries (jsGet st.obj "args")).foldl paramStep ("", 0)).1

/-- checkArgs (instance): same validation as the static variant with the
shorter diagnostic messages of setError / setWarning. -/
def checkArgsI (st : InstState) (q : JsValue) : InstState × Bool :=
  if !(["array", "object"].contains (typeofJs q)) then (st, false)
  else if !(truthy (jsGet q "src")) then
    ({ st with
        error := vStr "URL destination not specified"
        errorLevel := 0x01
        status := vNum 0x0001 }, false)
  else if !(truthy (jsGet q "args")) then
    ({ st with
        error := vStr "No arguments specified"
        errorLevel := 0x10
        status := vNum 0x0001 }, true)
  else (st, true)

/-- connect (instance): returns without a request when checkReq fails;
otherwise opens `method src`, sets the single Content-type header from
the `contentType` field (which setContentType really assigns), and sends
params as the body. -/
def connectI (st : InstState) : InstState × Option Request :=
  if !(checkReqI st) then (st, none)
  else (st, some
    { method := st.method
      url := jsToString st.src
      headers := [("Content-type", st.contentType)]
      body := st.params })

/-- prepareAndSend (instance): store the config, resolve src, params,
method, content type, pick the callback (`func === false ? cbf :
(cbf === true ? func : setCallbackFunction())`), then connect.  Note the
instance variant performs no window.location source rewriting. -/
def prepareAndSendI (st : InstState) (args cbf func : JsValue) : InstState × Option Request :=
  let st1 := { st with obj := args }
  let st2 := { st1 with src := getSrcI st1 }
  let st3 := { st2 with params := getParamsI st2 }
  let st4 := setMethodI st3
  let st5 := setContentTypeI st4
  let picked :=
    if isJsFalse func then cbf
    else if isJsTrue cbf then func
    else setCallbackFunctionI st5
  let st6 := { st5 with cbf := picked }
  connectI st6

/-- send (instance): checkArgs then prepareAndSend, or a console warning
with no request. -/
def sendI (st : InstState) (args cbf func : JsValue) : InstState × Option Request :=
  let (st1, ok) := checkArgsI st args
  if ok then prepareAndSendI st1 args cbf func else (st1, none)

/-- parseJSON (instance): JSON.parse with the raw text returned on a
SyntaxError — the helper the classification line of processResponse was
meant to reach. -/
def parseJSONI (resp : String) : JsValue := (jsonParse resp).getD (vStr resp)

/-- What one run of the instance processResponse does. -/
inductive InstHandlerOutcome where
  | warnedNoCallback : InstHandlerOutcome
  | threwReferenceError : InstHandlerOutcome
  | delivered : JsValue → InstHandlerOutcome

/-- processResponse (instance), as written: after the no-callback guard,
the statement `let resp = this.con.responseText` has no terminating
semicolon and the next line begins with a parenthesis, so the two lines
parse as the single call
`let resp = this.con.responseText((resp.match(..) && resp.match(..)) ? resp = this.parseJSON(resp) : null)`;
evaluating the argument reads `resp` inside its own initializer — a
temporal-dead-zone ReferenceError (and the callee is a string besides) —
so with any truthy callback the method throws before any classification
or delivery can happen. -/
def processResponseI (st : InstState) (_responseText : String) : InstHandlerOutcome :=
  if !(truthy st.cbf) then .warnedNoCallback
  else .threwReferenceError

/-- handleReadyStateChange (instance) at readyState 4: statuses in
[200, 300) run processResponse, every other status does nothing. -/
def handleReadyStateChangeI (st : InstState) (status : Nat) (responseText : String) :
    Option InstHandlerOutcome :=
  if 200 ≤ status ∧ status < 300 then some (processResponseI st responseText) else none

/-- Spec formulation (§4.1 step 3) of one encoded key=value fragment:
the string key URL-percent-encoded, then "=", then the value
URL-percent-encoded when it is a string and passed through to the
concatenation unencoded otherwise. -/
def specPairText (p : String × JsValue) : String :=
  encodeURI p.1 ++ "=" ++
    (match p.2 with
     | vStr s => encodeURI s
     | v => jsToString v)

/-- Spec formulation of a "&"-joined sequence of fragments. -/
def ampJoin : List String → String
  | [] => ""
  | [x] => x
  | x :: y :: r => x ++ "&" ++ ampJoin (y :: r)

/-- The "&"-prefixed tail fragments produced by every loop iteration of
getParams after the first. -/
def tailJoinS : List String → String
  | [] => ""
  | x :: r => "&" ++ x ++ tailJoinS r

/-- A browser location at the page https://example.com/app/index.html,
the concrete page of the spec's relative-resolution example. -/
def locEx : Location :=
  { protocol := "https:"
    host := "example.com"
    hostname := "example.com"
    pathname := "/app/index.html" }

theorem jsOr_pos (a b : JsValue) (h : truthy a = true) : jsOr a b = a := by
  simp [jsOr, h]

theorem jsOr_neg (a b : JsValue) (h : truthy a = false) : jsOr a b = b := by
  simp [jsOr, h]

theorem encodePair_eq_spec (p : String × JsValue) : encodePair p = specPairText p := by
  rcases p with ⟨k, v⟩
  cases v <;> rfl

theorem ampJoin_cons (x : String) (xs : List String) :
    ampJoin (x :: xs) = x ++ tailJoinS xs := by
  induction xs generalizing x with
  | nil => simp [ampJoin, tailJoinS]
  | cons y r ih => simp [ampJoin, tailJoinS, ih y, String.append_assoc]

theorem getParams_fold (l : List (String × JsValue)) (s : String) :
    (l.foldl paramStep (s, 1)).1 = s ++ tailJoinS (l.map encodePair) := by
  induction l generalizing s with
  | nil => simp [tailJoinS]
  | cons p r ih =>
      simp only [List.foldl_cons, List.map_cons, tailJoinS, paramStep]
      rw [if_neg (by decide)]
      rw [ih]
      simp [String.append_assoc]

/-- C9: canReach resolves false immediately without creating a request
when the url is empty (the falsy string); on a non-empty url it issues
the HEAD request, for every timeout, and resolves true exactly when the
observed transport outcome is a completed response with HTTP status in
[200, 300), resolving false on network error, timeout, or any other
status — including 500. -/
theorem C9_canReach_reachability :
    (∀ t o, canReach "" t o = { requestIssued := false, result := false }) ∧
    (∀ url t o, url ≠ "" →
       (canReach url t o).requestIssued = true ∧
       ((canReach url t o).result = true ↔
         ∃ c, o = XhrOutcome.httpStatus c ∧ 200 ≤ c ∧ c < 300)) ∧
    (canReach "http://host" 7 (XhrOutcome.httpStatus 500)).result = false := by
  refine ⟨fun t o => rfl, fun url t o h => ?_, rfl⟩
  have hne : url.isEmpty = false := by
    rw [Bool.eq_false_iff]
    intro hv
    exact h ((String.isEmpty_iff url).1 hv)
  refine ⟨by simp [canReach, hne], ?_⟩
  cases o with
  | httpStatus c => simp [canReach, hne]
  | netError => simp [canReach, hne]
  | timedOut => simp [canReach, hne]

/-- C9 witness: on the concrete non-empty url "http://a" with outcome
status 204, the request is issued and the probe resolves true. -/
theorem C9_canReach_reachability_witness :
    (canReach "http://a" 100 (XhrOutcome.httpStatus 204)).requestIssued = true ∧
    ((canReach "http://a" 100 (XhrOutcome.httpStatus 204)).result = true ↔
      ∃ c, XhrOutcome.httpStatus 204 = XhrOutcome.httpStatus c ∧ 200 ≤ c ∧ c < 300) :=
  C9_canReach_reachability.2.1 "http://a" 100 (XhrOutcome.httpStatus 204) (by decide)

/-- C10: the parameter encoding is not injective: encodeURI leaves "&"
and "=" unescaped, and the two distinct args mappings
a ↦ "b&c=d" and (a ↦ "b", c ↦ "d") yield the identical encoded
parameter string. -/
theorem C10_encoding_not_injective :
    encodeURI "&" = "&" ∧ encodeURI "=" = "=" ∧
    ([("a", vStr "b&c=d")] : List (String × JsValue)) ≠ [("a", vStr "b"), ("c", vStr "d")] ∧
    getParams { initialState with obj := vObj [("args", vObj [("a", vStr "b&c=d")])] } =
      getParams { initialState with obj := vObj [("args", vObj [("a", vStr "b"), ("c", vStr "d")])] } := by
  refine ⟨rfl, rfl, ?_, rfl⟩
  intro h
  simpa using congrArg List.length h

/-- C8: when obj.args is a mapping, getParams is the "&"-joined list of
key=value fragments — string keys and string values percent-encoded,
other values passed through — in iteration order; when args is falsy or
not map-shaped the result is the empty string; and on
args = (a ↦ "1", b ↦ "x y") it is "a=1&b=x%20y". -/
theorem C8_getParams_encoding :
    (∀ (st : ServerState) (l : List (String × JsValue)),
       jsGet st.obj "args" = vObj l →
       getParams st = ampJoin (l.map specPairText)) ∧
    (∀ st : ServerState, truthy (jsGet st.obj "args") = false → getParams st = "") ∧
    (∀ st : ServerState,
       (typeofJs (jsGet st.obj "args") == "array" ||
        typeofJs (jsGet st.obj "args") == "object") = false → getParams st = "") ∧
    getParams { initialState with obj := vObj [("args", vObj [("a", vStr "1"), ("b", vStr "x y")])] }
      = "a=1&b=x%20y" := by
  have hfun : encodePair = specPairText := funext encodePair_eq_spec
  refine ⟨fun st l h => ?_, fun st h => ?_, fun st h => ?_, rfl⟩
  · have hbase : getParams st = (l.foldl paramStep ("", 0)).1 := by
      rw [getParams, h]
      rfl
    rw [hbase]
    cases l with
    | nil => rfl
    | cons p r =>
        rw [show List.foldl paramStep ("", 0) (p :: r)
              = List.foldl paramStep ("" ++ encodePair p, 1) r from rfl]
        rw [getParams_fold]
        rw [List.map_cons, ampJoin_cons, hfun]
        simp [String.empty_append]
  · rw [getParams]
    simp [h]
  · rw [getParams]
    simp [h]

/-- C8 witness: the general mapping case applied to the concrete config
with args = (a ↦ "1", b ↦ "x y"). -/
theorem C8_getParams_encoding_witness :
    getParams { initialState with obj := vObj [("args", vObj [("a", vStr "1"), ("b", vStr "x y")])] }
      = ampJoin ([("a", vStr "1"), ("b", vStr "x y")].map specPairText) :=
  C8_getParams_encoding.1 _ [("a", vStr "1"), ("b", vStr "x y")] rfl

/-- C5: a config object whose src is absent or falsy makes send record
the fatal missing-destination diagnostic (error_level 0x01, status
0x0001, the missing-destination message), return false, issue no
request, and leave every other field of the client state as it was —
no derived state is written. -/
theorem C5_missing_src_aborts (loc : Location) (st : ServerState)
    (entries : List (String × JsValue)) (cb fn : JsValue)
    (h : truthy (jsGet (vObj entries) "src") = false) :
    send loc st (vObj entries) cb fn =
      ({ st with
          status := vNum 0x0001
          error := vStr "URL destination was not specified in arguments. Please specify a target URL server to send this data to."
          error_level := 0x01 }, false, none) := by
  rw [send, checkArgs]
  simp [typeofJs, h]

/-- C5 witness: the concrete config having args but no src is rejected
with the fatal diagnostic and no request. -/
theorem C5_missing_src_aborts_witness :
    send locEx initialState (vObj [("args", vObj [("a", vStr "1")])]) (vFun "f") (vBool false) =
      ({ initialState with
          status := vNum 0x0001
          error := vStr "URL destination was not specified in arguments. Please specify a target URL server to send this data to."
          error_level := 0x01 }, false, none) :=
  C5_missing_src_aborts locEx initialState [("args", vObj [("a", vStr "1")])]
    (vFun "f") (vBool false) rfl

@[simp] theorem validateSources_obj (loc : Location) (st : ServerState) :
    (validateSources loc st).obj = st.obj := by
  unfold validateSources
  split
  · rfl
  · split <;> rfl

@[simp] theorem validateSources_params (loc : Location) (st : ServerState) :
    (validateSources loc st).params = st.params := by
  unfold validateSources
  split
  · rfl
  · split <;> rfl

@[simp] theorem validateSources_error_level (loc : Location) (st : ServerState) :
    (validateSources loc st).error_level = st.error_level := by
  unfold validateSources
  split
  · rfl
  · split <;> rfl

@[simp] theorem setMethod_obj (st : ServerState) : (setMethod st).obj = st.obj := by
  unfold setMethod
  split
  · rfl
  · split <;> rfl

@[simp] theorem setMethod_params (st : ServerState) : (setMethod st).params = st.params := by
  unfold setMethod
  split
  · rfl
  · split <;> rfl

@[simp] theorem setMethod_error_level (st : ServerState) :
    (setMethod st).error_level = st.error_level := by
  unfold setMethod
  split
  · rfl
  · split <;> rfl

@[simp] theorem setContentType_obj (st : ServerState) : (setContentType st).obj = st.obj := by
  unfold setContentType
  split
  · rfl
  · split <;> rfl

@[simp] theorem setContentType_params (st : ServerState) :
    (setContentType st).params = st.params := by
  unfold setContentType
  split
  · rfl
  · split <;> rfl

@[simp] theorem setContentType_error_level (st : ServerState) :
    (setContentType st).error_level = st.error_level := by
  unfold setContentType
  split
  · rfl
  · split <;> rfl

@[simp] theorem setCallbackFunction_obj (st : ServerState) :
    (setCallbackFunction st).obj = st.obj := by
  unfold setCallbackFunction
  split <;> rfl

@[simp] theorem setCallbackFunction_params (st : ServerState) :
    (setCallbackFunction st).params = st.params := by
  unfold setCallbackFunction
  split <;> rfl

@[simp] theorem setCallbackFunction_error_level (st : ServerState) :
    (setCallbackFunction st).error_level = st.error_level := by
  unfold setCallbackFunction
  split <;> rfl

theorem checkReq_of_empty_params (st : ServerState) (h : st.params = "") :
    checkReq st = false := by
  simp [checkReq, h]

theorem connect_not_sent (st : ServerState) (h : checkReq st = false) :
    connect st = (st, false, none) := by
  simp [connect, h]

/-- C1 counterexample: the concrete config with a present src and
absent args passes validation, yields an empty params string, and
connect does NOT issue the request — send returns false with no
request, refuting the claim that the connection is still opened. -/
theorem C1_counterexample :
    (checkArgs initialState (vObj [("src", vStr "http://h/x")])).2 = true ∧
    (send locEx initialState (vObj [("src", vStr "http://h/x")]) (vFun "f") (vBool false)).1.params = "" ∧
    (send locEx initialState (vObj [("src", vStr "http://h/x")]) (vFun "f") (vBool false)).2.1 = false ∧
    (send locEx initialState (vObj [("src", vStr "http://h/x")]) (vFun "f") (vBool false)).2.2 = none :=
  ⟨rfl, rfl, rfl, rfl⟩

/-- C1 amended: for every config with a truthy src and falsy args, send
proceeds past validation with the non-fatal missing-arguments warning
(error_level 0x10) and an empty encoded parameter string, but checkReq
also requires the params string to be non-empty, so connect refuses:
send returns false and no request is issued. -/
theorem C1_amended_empty_params_blocks (loc : Location) (st : ServerState)
    (entries : List (String × JsValue)) (cb fn : JsValue)
    (hsrc : truthy (jsGet (vObj entries) "src") = true)
    (hargs : truthy (jsGet (vObj entries) "args") = false) :
    (checkArgs st (vObj entries)).2 = true ∧
    (checkArgs st (vObj entries)).1.error_level = 0x10 ∧
    (send loc st (vObj entries) cb fn).1.params = "" ∧
    (send loc st (vObj entries) cb fn).2.1 = false ∧
    (send loc st (vObj entries) cb fn).2.2 = none := by
  have hca : checkArgs st (vObj entries) =
      ({ st with
          status := vNum 0x0001
          error := vStr "No arguments were specified."
          error_level := 0x10 }, true) := by
    rw [checkArgs]
    simp [typeofJs, hsrc, hargs]
  have hgp : ∀ st' : ServerState, st'.obj = vObj entries → getParams st' = "" := by
    intro st' h'
    rw [getParams, h']
    simp [hargs]
  have hparams : ∀ st' : ServerState,
      (sendDerive loc st' (vObj entries) cb fn).params = "" := by
    intro st'
    simp only [sendDerive]
    split_ifs <;> simp <;>
      · apply hgp
        simp
  have hmain : send loc st (vObj entries) cb fn =
      (sendDerive loc (checkArgs st (vObj entries)).1 (vObj entries) cb fn, false, none) := by
    rw [send, hca]
    dsimp only
    rw [connect_not_sent _ (checkReq_of_empty_params _ (hparams _))]
    rw [if_neg (by decide)]
  refine ⟨by rw [hca], by rw [hca], ?_, ?_, ?_⟩
  · rw [hmain]
    exact hparams _
  · rw [hmain]
  · rw [hmain]

/-- C1 witness: the amended statement applied to the concrete config
with src "http://h/x" and no args. -/
theorem C1_amended_empty_params_blocks_witness :
    (checkArgs initialState (vObj [("src", vStr "http://h/x")])).2 = true ∧
    (checkArgs initialState (vObj [("src", vStr "http://h/x")])).1.error_level = 0x10 ∧
    (send locEx initialState (vObj [("src", vStr "http://h/x")]) (vFun "g") (vBool false)).1.params = "" ∧
    (send locEx initialState (vObj [("src", vStr "http://h/x")]) (vFun "g") (vBool false)).2.1 = false ∧
    (send locEx initialState (vObj [("src", vStr "http://h/x")]) (vFun "g") (vBool false)).2.2 = none :=
  C1_amended_empty_params_blocks locEx initialState [("src", vStr "http://h/x")]
    (vFun "g") (vBool false) rfl rfl

/-- C3 counterexample: on the config supplying both a callback key and
a func key, both variants resolve the func value "B", not the callback
value "A" that the claimed priority order (callback first) predicts. -/
theorem C3_counterexample :
    (setCallbackFunction { initialState with obj := vObj [("callback", vStr "A"), ("func", vStr "B")] }).cbf
      = vStr "B" ∧
    setCallbackFunctionI { initInst with obj := vObj [("callback", vStr "A"), ("func", vStr "B")] }
      = vStr "B" ∧
    vStr "B" ≠ vStr "A" := by
  refine ⟨rfl, rfl, by simp⟩

/-- C3 amended: with a config object present and no usable positional
callback, the resolved callback is the value of the earliest key whose
value is truthy in the priority order func, cbf, callback,
callback-function — falling back to false when all four are falsy —
and the instance variant resolves identically to the static one. -/
theorem C3_amended_priority (st : ServerState) (entries : List (String × JsValue))
    (hobj : st.obj = vObj entries) :
    (truthy (jsGet st.obj "func") = true →
       (setCallbackFunction st).cbf = jsGet st.obj "func") ∧
    (truthy (jsGet st.obj "func") = false → truthy (jsGet st.obj "cbf") = true →
       (setCallbackFunction st).cbf = jsGet st.obj "cbf") ∧
    (truthy (jsGet st.obj "func") = false → truthy (jsGet st.obj "cbf") = false →
     truthy (jsGet st.obj "callback") = true →
       (setCallbackFunction st).cbf = jsGet st.obj "callback") ∧
    (truthy (jsGet st.obj "func") = false → truthy (jsGet st.obj "cbf") = false →
     truthy (jsGet st.obj "callback") = false →
     truthy (jsGet st.obj "callback-function") = true →
       (setCallbackFunction st).cbf = jsGet st.obj "callback-function") ∧
    (truthy (jsGet st.obj "func") = false → truthy (jsGet st.obj "cbf") = false →
     truthy (jsGet st.obj "callback") = false →
     truthy (jsGet st.obj "callback-function") = false →
       (setCallbackFunction st).cbf = vBool false) ∧
    setCallbackFunctionI { initInst with obj := st.obj } = (setCallbackFunction st).cbf := by
  have hco : check_obj st = true := by
    rw [check_obj, hobj]
    rfl
  have hcbf : (setCallbackFunction st).cbf =
      jsOr (jsGet st.obj "func") (jsOr (jsGet st.obj "cbf")
        (jsOr (jsGet st.obj "callback")
          (jsOr (jsGet st.obj "callback-function") (vBool false)))) := by
    rw [setCallbackFunction, if_neg (by simp [hco])]
  refine ⟨?_, ?_, ?_, ?_, ?_, ?_⟩
  · intro h1
    rw [hcbf, jsOr_pos _ _ h1]
  · intro h1 h2
    rw [hcbf, jsOr_neg _ _ h1, jsOr_pos _ _ h2]
  · intro h1 h2 h3
    rw [hcbf, jsOr_neg _ _ h1, jsOr_neg _ _ h2, jsOr_pos _ _ h3]
  · intro h1 h2 h3 h4
    rw [hcbf, jsOr_neg _ _ h1, jsOr_neg _ _ h2, jsOr_neg _ _ h3, jsOr_pos _ _ h4]
  · intro h1 h2 h3 h4
    rw [hcbf, jsOr_neg _ _ h1, jsOr_neg _ _ h2, jsOr_neg _ _ h3, jsOr_neg _ _ h4]
  · have hcoI : checkObjI { initInst with obj := st.obj } = true := by
      rw [checkObjI]
      show List.contains _ (typeofJs st.obj) = true
      rw [hobj]
      rfl
    rw [setCallbackFunctionI, if_pos hcoI, hcbf]

/-- C3 witness: the amended priority applied to the concrete config
holding both callback and func keys — func wins. -/
theorem C3_amended_priority_witness :
    (setCallbackFunction { initialState with obj := vObj [("callback", vStr "A"), ("func", vStr "B")] }).cbf
      = jsGet ({ initialState with obj := vObj [("callback", vStr "A"), ("func", vStr "B")] } : ServerState).obj "func" :=
  (C3_amended_priority { initialState with obj := vObj [("callback", vStr "A"), ("func", vStr "B")] }
    [("callback", vStr "A"), ("func", vStr "B")] rfl).1 (by decide)

theorem connectI_state (st : InstState) : (connectI st).1 = st := by
  unfold connectI
  split <;> rfl

@[simp] theorem setContentTypeI_method (st : InstState) :
    (setContentTypeI st).method = st.method := rfl

@[simp] theorem setMethodI_obj (st : InstState) :
    (setMethodI st).obj = st.obj := rfl

/-- C6 counterexample: on the static class, state survives between
calls — after a send with method "get", a second send whose config has
no method key resolves and dispatches method "GET", not the claimed
default "POST". -/
theorem C6_counterexample :
    ((send locEx
        (send locEx initialState
          (vObj [("src", vStr "http://h/a"), ("method", vStr "get"), ("args", vObj [("a", vStr "1")])])
          (vFun "f") (vBool false)).1
        (vObj [("src", vStr "http://h/b"), ("args", vObj [("a", vStr "1")])])
        (vFun "f") (vBool false)).1.method = "GET" ∧
     ((send locEx
        (send locEx initialState
          (vObj [("src", vStr "http://h/a"), ("method", vStr "get"), ("args", vObj [("a", vStr "1")])])
          (vFun "f") (vBool false)).1
        (vObj [("src", vStr "http://h/b"), ("args", vObj [("a", vStr "1")])])
        (vFun "f") (vBool false)).2.2.map Request.method) = some "GET" ∧
     "GET" ≠ "POST") := by
  refine ⟨rfl, rfl, by decide⟩

/-- C6 amended: the instance variant re-derives method and content type
on every send — whatever earlier sends left in the instance state, a
config without a method key resolves method "POST" and one without a
content-type key resolves content type
"application/x-www-form-urlencoded"; the static variant instead keeps
previously resolved values across calls. -/
theorem C6_amended_instance_fresh (st : InstState) (entries : List (String × JsValue))
    (cb fn : JsValue)
    (hsrc : truthy (jsGet (vObj entries) "src") = true)
    (hargs : truthy (jsGet (vObj entries) "args") = true)
    (hm : jsGet (vObj entries) "method" = vUndef)
    (hc : jsGet (vObj entries) "content-type" = vUndef) :
    (sendI st (vObj entries) cb fn).1.method = "POST" ∧
    (sendI st (vObj entries) cb fn).1.contentType = "application/x-www-form-urlencoded" := by
  have hca : checkArgsI st (vObj entries) = (st, true) := by
    rw [checkArgsI]
    simp [typeofJs, hsrc, hargs]
  have hsend : sendI st (vObj entries) cb fn =
      prepareAndSendI st (vObj entries) cb fn := by
    rw [sendI, hca]
    rfl
  rw [hsend, prepareAndSendI]
  dsimp only
  rw [connectI_state]
  constructor
  · rw [setContentTypeI_method]
    rw [setMethodI]
    simp [checkObjI, typeofJs, hm, truthy]
  · rw [setContentTypeI]
    simp [checkObjI, typeofJs, hc, truthy]

/-- C6 witness: the amended freshness applied to an instance state left
over from an earlier send with method "get" and content type
"TEXT/PLAIN" — the next config without those keys still resolves the
defaults. -/
theorem C6_amended_instance_fresh_witness :
    (sendI { initInst with method := "GET", contentType := "TEXT/PLAIN" }
        (vObj [("src", vStr "http://h/b"), ("args", vObj [("a", vStr "1")])])
        (vFun "f") (vBool false)).1.method = "POST" ∧
    (sendI { initInst with method := "GET", contentType := "TEXT/PLAIN" }
        (vObj [("src", vStr "http://h/b"), ("args", vObj [("a", vStr "1")])])
        (vFun "f") (vBool false)).1.contentType = "application/x-www-form-urlencoded" :=
  C6_amended_instance_fresh { initInst with method := "GET", contentType := "TEXT/PLAIN" }
    [("src", vStr "http://h/b"), ("args", vObj [("a", vStr "1")])]
    (vFun "f") (vBool false) rfl rfl rfl rfl

/-- C7 counterexample: the path "/a/b.json" has extension json, which is
NOT in the claimed set php/js/css/html/asp, yet dirname strips the
filename (the regex matches "js" inside "json"), so a relative source
resolves against "/a/" and not against the claimed unchanged path. -/
theorem C7_counterexample :
    dirname "/a/b.json" = "/a/" ∧
    (validateSources
        { protocol := "https:", host := "h.com", hostname := "h.com", pathname := "/a/b.json" }
        { initialState with src := vStr "q" }).src = vStr "https://h.com/a/q" ∧
    vStr "https://h.com/a/q" ≠ vStr "https://h.com/a/b.jsonq" := by
  refine ⟨by rfl, by rfl, by simp⟩

/-- C7 amended: a string src without the case-insensitive substring
"http" resolves to protocol + "//" + (host, falling back to hostname) +
dirname(pathname) + src, where dirname strips a trailing filename when
the last dot-separated segment of the path contains one of php, js,
css, html, asp as a case-insensitive substring (so ".json" is also
stripped, via "js"), keeping the trailing slash, and leaves the path
unchanged otherwise; the spec's concrete example resolves to
https://example.com/app/data.json. -/
theorem C7_amended_resolution (loc : Location) (st : ServerState) (s : String)
    (hst : st.src = vStr s)
    (h : containsSubstr (lowerStr s) "http" = false) :
    (validateSources loc st).src =
      vStr (loc.protocol ++ "//" ++
            (if !(loc.host.isEmpty) then loc.host else loc.hostname) ++
            dirname loc.pathname ++ s) ∧
    dirname "/app/index.html" = "/app/" ∧
    dirname "/a/b.json" = "/a/" ∧
    dirname "/app/data" = "/app/data" ∧
    dirname "/a/b.txt" = "/a/b.txt" ∧
    (validateSources locEx { initialState with src := vStr "data.json" }).src =
      vStr "https://example.com/app/data.json" := by
  refine ⟨?_, by rfl, by rfl, by rfl, by rfl, by rfl⟩
  rw [validateSources, hst]
  simp [typeofJs, jsToString, h]

/-- C7 witness: the amended resolution applied to the spec's example
page and relative source. -/
theorem C7_amended_resolution_witness :
    (validateSources locEx { initialState with src := vStr "data.json" }).src =
      vStr (locEx.protocol ++ "//" ++
            (if !(locEx.host.isEmpty) then locEx.host else locEx.hostname) ++
            dirname locEx.pathname ++ "data.json") :=
  (C7_amended_resolution locEx { initialState with src := vStr "data.json" }
    "data.json" rfl rfl).1

/-- C2 evidence of the static content-type slip: on a config carrying
content-type "application/json", the static setContentType stores the
upper-cased value in the orphan property `contentType` while the
dispatched request's only header still carries the default from the
`content_type` field connect reads; the instance variant — the rewrite
of the same class — dispatches the upper-cased value, showing the
intended behavior. -/
theorem C2_contentType_typo_evidence :
    (send locEx initialState
        (vObj [("src", vStr "http://h/x"), ("args", vObj [("a", vStr "1")]),
               ("content-type", vStr "application/json")])
        (vFun "f") (vBool false)).1.contentType = vStr "APPLICATION/JSON" ∧
    (send locEx initialState
        (vObj [("src", vStr "http://h/x"), ("args", vObj [("a", vStr "1")]),
               ("content-type", vStr "application/json")])
        (vFun "f") (vBool false)).2.2 =
      some { method := "POST"
             url := "http://h/x"
             headers := [("Content-type", "application/x-www-form-urlencoded")]
             body := "a=1" } ∧
    (sendI initInst
        (vObj [("src", vStr "http://h/x"), ("args", vObj [("a", vStr "1")]),
               ("content-type", vStr "application/json")])
        (vFun "f") (vBool false)).2 =
      some { method := "POST"
             url := "http://h/x"
             headers := [("Content-type", "APPLICATION/JSON")]
             body := "a=1" } ∧
    "application/x-www-form-urlencoded" ≠ "APPLICATION/JSON" := by
  refine ⟨by rfl, by rfl, by rfl, by decide⟩

/-- C4: the claimed delivery is exactly what the static handler does —
with a usable resolved callback and a 2xx status it delivers the
classified body: JSON-parsed when the text has both braces or both
brackets (raw-text fallback on parse failure, coinciding with the
instance's own parseJSON helper), the raw text unchanged otherwise, so
the object-literal body arrives as the structured value and "plain"
arrives unchanged — but the instance processResponse, whose
classification line lost its terminating semicolon, evaluates
responseText as a call whose argument reads `resp` inside its own
initializer, so with any truthy callback it throws a ReferenceError and
delivers nothing, also at the claim's own concrete bodies. -/
theorem C4_static_delivers_instance_throws :
    (∀ (fns : List String) (st : ServerState) (status : Nat) (resp : String),
       200 ≤ status → status < 300 → truthy st.cbf = true →
       (windowHas fns st.cbf || typeofJs st.cbf == "function") = true →
       handleResponse fns st status resp = HandlerAction.delivered (classifyBody resp)) ∧
    (∀ resp : String,
       ((containsChar resp '{' && containsChar resp '}') ||
        (containsChar resp '[' && containsChar resp ']')) = true →
       (∀ v, jsonParse resp = some v → classifyBody resp = v) ∧
       (jsonParse resp = none → classifyBody resp = vStr resp) ∧
       classifyBody resp = parseJSONI resp) ∧
    (∀ resp : String,
       ((containsChar resp '{' && containsChar resp '}') ||
        (containsChar resp '[' && containsChar resp ']')) = false →
       classifyBody resp = vStr resp) ∧
    classifyBody "\x7b\"k\":1\x7d" = vObj [("k", vNum 1)] ∧
    classifyBody "plain" = vStr "plain" ∧
    (∀ (st : InstState) (resp : String), truthy st.cbf = true →
       processResponseI st resp = InstHandlerOutcome.threwReferenceError) ∧
    handleReadyStateChangeI { initInst with cbf := vFun "cb" } 200 "\x7b\"k\":1\x7d"
      = some InstHandlerOutcome.threwReferenceError ∧
    handleReadyStateChangeI { initInst with cbf := vFun "cb" } 200 "plain"
      = some InstHandlerOutcome.threwReferenceError := by
  refine ⟨fun fns st status resp h1 h2 hcb husable => ?_,
    fun resp hmark => ⟨fun v hv => ?_, fun hv => ?_, ?_⟩,
    fun resp hmark => ?_, by rfl, by rfl, fun st resp hcb => ?_, by rfl, by rfl⟩
  · rw [handleResponse, if_pos ⟨h1, h2⟩]
    rw [if_neg (by simp [hcb])]
    rw [if_pos husable]
  · rw [classifyBody, if_pos hmark, hv]
  · rw [classifyBody, if_pos hmark, hv]
  · rw [classifyBody, if_pos hmark, parseJSONI]
    cases hj : jsonParse resp <;> simp [hj]
  · rw [classifyBody, if_neg (by simp [hmark])]
  · rw [processResponseI, if_neg (by simp [hcb])]

/-- C4 witness: the static delivery applied at status 200, body
"plain", and window callback "f", and the instance throw applied at a
function callback and the object-literal body. -/
theorem C4_static_delivers_instance_throws_witness :
    handleResponse ["f"] { initialState with cbf := vStr "f" } 200 "plain"
      = HandlerAction.delivered (classifyBody "plain") ∧
    processResponseI { initInst with cbf := vFun "cb" } "\x7b\"k\":1\x7d"
      = InstHandlerOutcome.threwReferenceError :=
  ⟨C4_static_delivers_instance_throws.1 ["f"] { initialState with cbf := vStr "f" } 200 "plain"
    (by decide) (by decide) (by decide) (by decide),
   C4_static_delivers_instance_throws.2.2.2.2.2.1 { initInst with cbf := vFun "cb" }
    "\x7b\"k\":1\x7d" (by decide)⟩

end ServerJs
